import Mathlib

/-!
Verification of the circuit-breaker decision engine of
`core/circuit_breaker/circuit_breaker.go` (sentinel-golang).

Shallow embedding notes.

* The metric source (`base.ReadStat`) is external: a `TryPass` call reads
  current aggregates from it.  We model the values a call would read as a
  `ReadStat` record passed to `tryPass` as an environment argument, and the
  breaker's lazily resolved `metric` reference as a Boolean flag
  `metricResolved` (nil reference = `false`).  The outcome of the stat-node
  lookup `stat.GetResourceNode` on a given call is the Boolean environment
  argument `resNodeAvailable`.
* Go `float64` metric values and thresholds are modelled as rationals `ℚ`.
  The one place where IEEE-754 semantics matters — the comparison
  `err/complete < rule.Threshold` when `complete` may be zero — is modelled
  exactly by `floatDivLt` below (division by positive zero yields ±Inf or
  NaN, and those compare to a finite threshold as IEEE prescribes).
* `int64` counters are modelled as `ℤ`; atomic store / increment-and-get
  become plain functional updates, which is faithful for a single call.
* Each `TryPass` call returns a `TryPassOutcome`: the Boolean decision, the
  updated breaker state, the number of metric-source reads performed
  (`AvgRT` / `GetQPS` calls), the number of `logger.Errorf` calls, the
  recovery task scheduled by a winning `CompareAndSet` (carrying its sleep
  delay in seconds, `time.Sleep(time.Second * rule.RecoverTimeout)`), and
  the divisor observed by the division `err/complete` if that expression
  was evaluated (`none` when the call never reaches the division).
* The body of a scheduled recovery task is embedded as the functions
  `averageRtRecover` / `errorRatioRecover` / `errorCountRecover`; they take
  only the breaker state, mirroring that the Go closure touches no metrics.
* The trip site `b.cut.CompareAndSet(false, true)` is atomic in Go; the
  interleaving of n concurrent callers that all reached the trip site is
  therefore a sequence of atomic CAS steps, embedded as `runTripRace`.
-/

/-- Current aggregates read from the sliding-window metric source
(`base.ReadStat`): `AvgRT()` and `GetQPS` for the four event kinds. -/
structure ReadStat where
  avgRT : ℚ
  errorQPS : ℚ
  completeQPS : ℚ
  passQPS : ℚ
  blockQPS : ℚ
  deriving DecidableEq

/-- Rule for the average-RT strategy (`averageRtRule`): `Threshold` is a
`float64` latency ceiling, `RtSlowRequestAmount` an `int64` tolerance,
`RecoverTimeout` the cooldown in seconds. -/
structure AverageRtRule where
  resource : String
  sampleCount : ℕ
  intervalInMs : ℕ
  threshold : ℚ
  rtSlowRequestAmount : ℤ
  recoverTimeout : ℕ
  deriving DecidableEq

/-- Rule for the error-ratio strategy (`errorRatioRule`): `Threshold` is a
`float64` ratio ceiling, `MinRequestAmount` an integer minimum sample
size (used via `float64(rule.MinRequestAmount)`). -/
structure ErrorRatioRule where
  resource : String
  sampleCount : ℕ
  intervalInMs : ℕ
  threshold : ℚ
  minRequestAmount : ℕ
  recoverTimeout : ℕ
  deriving DecidableEq

/-- Rule for the error-count strategy (`errorCountRule`): `Threshold` is an
integer error-count ceiling (used via `float64(rule.Threshold)`). -/
structure ErrorCountRule where
  resource : String
  sampleCount : ℕ
  intervalInMs : ℕ
  threshold : ℕ
  recoverTimeout : ℕ
  deriving DecidableEq

/-- Result of one `TryPass` call, over breaker-state type `B`. -/
structure TryPassOutcome (B : Type) where
  pass : Bool
  breaker : B
  metricReads : ℕ
  logs : ℕ
  recovery : Option ℕ
  divisorAtDivision : Option ℚ
  deriving DecidableEq

/-- Go `float64` test `a / b < t` for finite `a b t`, `b` possibly (positive)
zero: `a/0` is `+Inf` for `a > 0` (so the test is false), `-Inf` for `a < 0`
(test true), and NaN for `a = 0` (every NaN comparison is false). -/
def floatDivLt (a b t : ℚ) : Bool :=
  if b = 0 then decide (a < 0) else decide (a / b < t)

/-- State of `averageRtCircuitBreaker`: the atomic `cut` flag, the `int64`
debounce counter `passCount`, the rule pointer (`none` = nil), and whether
the `metric` reference has been resolved (non-nil). -/
structure AverageRtCircuitBreaker where
  cut : Bool
  passCount : ℤ
  rule : Option AverageRtRule
  metricResolved : Bool
  deriving DecidableEq

/-- `newAverageRtCircuitBreaker`: zero-valued `cut` and `passCount`; the
metric is resolved at construction iff the stat node lookup succeeded. -/
def newAverageRtCircuitBreaker (r : Option AverageRtRule) (resolved : Bool) :
    AverageRtCircuitBreaker :=
  ⟨false, 0, r, resolved⟩

/-- The metric-evaluation tail of `averageRtCircuitBreaker.TryPass`, reached
once `cut` is false, the rule is non-nil and the metric is resolved:
compare `AvgRT()` with the threshold, reset or increment the debounce
counter, and trip through `cut.CompareAndSet(false, true)` once the
post-increment counter reaches `RtSlowRequestAmount`. -/
def averageRtEval (b : AverageRtCircuitBreaker) (rule : AverageRtRule)
    (env : ReadStat) (logs : ℕ) : TryPassOutcome AverageRtCircuitBreaker :=
  if env.avgRT < rule.threshold then
    ⟨true, { b with passCount := 0 }, 1, logs, none, none⟩
  else if b.passCount + 1 < rule.rtSlowRequestAmount then
    ⟨true, { b with passCount := b.passCount + 1 }, 1, logs, none, none⟩
  else if b.cut = false then
    ⟨false, { b with passCount := b.passCount + 1, cut := true }, 1, logs,
      some rule.recoverTimeout, none⟩
  else
    ⟨false, { b with passCount := b.passCount + 1 }, 1, logs, none, none⟩

/-- `averageRtCircuitBreaker.TryPass`: reject immediately while `cut` is
set; admit on a nil rule; on a nil metric reference, look the stat node up
(`resNodeAvailable`), logging and admitting when the lookup fails, else
resolving the metric (with a delayed-initialization log) and continuing. -/
def AverageRtCircuitBreaker.tryPass (b : AverageRtCircuitBreaker)
    (resNodeAvailable : Bool) (env : ReadStat) :
    TryPassOutcome AverageRtCircuitBreaker :=
  if b.cut then ⟨false, b, 0, 0, none, none⟩
  else
    match b.rule with
    | none => ⟨true, b, 0, 0, none, none⟩
    | some rule =>
      if b.metricResolved then averageRtEval b rule env 0
      else if resNodeAvailable then
        averageRtEval { b with metricResolved := true } rule env 1
      else ⟨true, b, 0, 1, none, none⟩

/-- Body of the recovery goroutine spawned by a winning CAS in
`averageRtCircuitBreaker.TryPass`: after the sleep, store 0 into
`passCount` and set `cut` back to false.  It reads no metrics: it is a
function of the breaker state alone. -/
def averageRtRecover (b : AverageRtCircuitBreaker) : AverageRtCircuitBreaker :=
  { b with passCount := 0, cut := false }

/-- `averageRtCircuitBreaker.getRule`. -/
def AverageRtCircuitBreaker.getRule (b : AverageRtCircuitBreaker) :
    Option AverageRtRule :=
  b.rule

/-- State of `errorRatioCircuitBreaker`: same shape as the average-RT one
(the `passCount` field is declared in the Go struct but never incremented
by this strategy). -/
structure ErrorRatioCircuitBreaker where
  cut : Bool
  passCount : ℤ
  rule : Option ErrorRatioRule
  metricResolved : Bool
  deriving DecidableEq

/-- `newErrorRatioCircuitBreaker`: zero-valued `cut` and `passCount`. -/
def newErrorRatioCircuitBreaker (r : Option ErrorRatioRule) (resolved : Bool) :
    ErrorRatioCircuitBreaker :=
  ⟨false, 0, r, resolved⟩

/-- The metric-evaluation tail of `errorRatioCircuitBreaker.TryPass`:
read `err`, `complete` and `total = pass + block` from the metric source;
admit when `total < float64(MinRequestAmount)`; admit when
`complete - err <= 0 && err < float64(MinRequestAmount)`; admit when
`err/complete < Threshold` (IEEE float comparison, divisor possibly zero);
otherwise trip through `cut.CompareAndSet(false, true)`. -/
def errorRatioEval (b : ErrorRatioCircuitBreaker) (rule : ErrorRatioRule)
    (env : ReadStat) (logs : ℕ) : TryPassOutcome ErrorRatioCircuitBreaker :=
  if env.passQPS + env.blockQPS < (rule.minRequestAmount : ℚ) then
    ⟨true, b, 4, logs, none, none⟩
  else if env.completeQPS - env.errorQPS ≤ 0 ∧
      env.errorQPS < (rule.minRequestAmount : ℚ) then
    ⟨true, b, 4, logs, none, none⟩
  else if floatDivLt env.errorQPS env.completeQPS rule.threshold then
    ⟨true, b, 4, logs, none, some env.completeQPS⟩
  else if b.cut = false then
    ⟨false, { b with cut := true }, 4, logs, some rule.recoverTimeout,
      some env.completeQPS⟩
  else
    ⟨false, b, 4, logs, none, some env.completeQPS⟩

/-- `errorRatioCircuitBreaker.TryPass`: reject while `cut` is set; admit on
a nil rule; resolve the metric lazily (log-and-admit when the stat node is
missing); then evaluate the error-ratio condition. -/
def ErrorRatioCircuitBreaker.tryPass (b : ErrorRatioCircuitBreaker)
    (resNodeAvailable : Bool) (env : ReadStat) :
    TryPassOutcome ErrorRatioCircuitBreaker :=
  if b.cut then ⟨false, b, 0, 0, none, none⟩
  else
    match b.rule with
    | none => ⟨true, b, 0, 0, none, none⟩
    | some rule =>
      if b.metricResolved then errorRatioEval b rule env 0
      else if resNodeAvailable then
        errorRatioEval { b with metricResolved := true } rule env 1
      else ⟨true, b, 0, 1, none, none⟩

/-- Body of the recovery goroutine spawned in
`errorRatioCircuitBreaker.TryPass`: after the sleep, set `cut` back to
false (this strategy's goroutine does not touch `passCount`). -/
def errorRatioRecover (b : ErrorRatioCircuitBreaker) : ErrorRatioCircuitBreaker :=
  { b with cut := false }

/-- `errorRatioCircuitBreaker.getRule`. -/
def ErrorRatioCircuitBreaker.getRule (b : ErrorRatioCircuitBreaker) :
    Option ErrorRatioRule :=
  b.rule

/-- State of `errorCountCircuitBreaker` (again with the never-incremented
`passCount` field of the Go struct). -/
structure ErrorCountCircuitBreaker where
  cut : Bool
  passCount : ℤ
  rule : Option ErrorCountRule
  metricResolved : Bool
  deriving DecidableEq

/-- `newErrorCountCircuitBreaker`: zero-valued `cut` and `passCount`. -/
def newErrorCountCircuitBreaker (r : Option ErrorCountRule) (resolved : Bool) :
    ErrorCountCircuitBreaker :=
  ⟨false, 0, r, resolved⟩

/-- The metric-evaluation tail of `errorCountCircuitBreaker.TryPass`: admit
when `GetQPS(Error) < float64(Threshold)`, otherwise trip through
`cut.CompareAndSet(false, true)`. -/
def errorCountEval (b : ErrorCountCircuitBreaker) (rule : ErrorCountRule)
    (env : ReadStat) (logs : ℕ) : TryPassOutcome ErrorCountCircuitBreaker :=
  if env.errorQPS < (rule.threshold : ℚ) then
    ⟨true, b, 1, logs, none, none⟩
  else if b.cut = false then
    ⟨false, { b with cut := true }, 1, logs, some rule.recoverTimeout, none⟩
  else
    ⟨false, b, 1, logs, none, none⟩

/-- `errorCountCircuitBreaker.TryPass`: reject while `cut` is set; admit on
a nil rule; resolve the metric lazily (log-and-admit when the stat node is
missing); then evaluate the error-count condition. -/
def ErrorCountCircuitBreaker.tryPass (b : ErrorCountCircuitBreaker)
    (resNodeAvailable : Bool) (env : ReadStat) :
    TryPassOutcome ErrorCountCircuitBreaker :=
  if b.cut then ⟨false, b, 0, 0, none, none⟩
  else
    match b.rule with
    | none => ⟨true, b, 0, 0, none, none⟩
    | some rule =>
      if b.metricResolved then errorCountEval b rule env 0
      else if resNodeAvailable then
        errorCountEval { b with metricResolved := true } rule env 1
      else ⟨true, b, 0, 1, none, none⟩

/-- Body of the recovery goroutine spawned in
`errorCountCircuitBreaker.TryPass`: after the sleep, set `cut` back to
false (no touch of `passCount`). -/
def errorCountRecover (b : ErrorCountCircuitBreaker) : ErrorCountCircuitBreaker :=
  { b with cut := false }

/-- `errorCountCircuitBreaker.getRule`. -/
def ErrorCountCircuitBreaker.getRule (b : ErrorCountCircuitBreaker) :
    Option ErrorCountRule :=
  b.rule

/-- `util.AtomicBool.CompareAndSet(expect, update)` on current value `cur`:
returns the new stored value and whether the swap happened. -/
def compareAndSet (cur expect update : Bool) : Bool × Bool :=
  if cur = expect then (update, true) else (cur, false)

/-- Interleaving of `n` concurrent callers that have all reached the trip
site `if b.cut.CompareAndSet(false, true) { go recover }`.  The CAS is the
only shared-state access at that site and it is atomic, so every
interleaving is a sequence of `compareAndSet cut false true` steps; the
second component counts the recovery goroutines spawned. -/
def runTripRace : Bool → ℕ → Bool × ℕ
  | cut, 0 => (cut, 0)
  | cut, n + 1 =>
    let c := compareAndSet cut false true
    let rest := runTripRace c.1 n
    (rest.1, rest.2 + (if c.2 then 1 else 0))

/-- States of an `averageRtCircuitBreaker` reachable from construction with
rule `r` by any sequence of `TryPass` calls and recovery-goroutine bodies. -/
inductive AvgRtReachable (r : Option AverageRtRule) :
    AverageRtCircuitBreaker → Prop where
  | init (resolved : Bool) : AvgRtReachable r (newAverageRtCircuitBreaker r resolved)
  | call (b : AverageRtCircuitBreaker) (nav : Bool) (env : ReadStat) :
      AvgRtReachable r b → AvgRtReachable r (b.tryPass nav env).breaker
  | recovery (b : AverageRtCircuitBreaker) :
      AvgRtReachable r b → AvgRtReachable r (averageRtRecover b)

/-- States of an `errorRatioCircuitBreaker` reachable from construction. -/
inductive ErrRatioReachable (r : Option ErrorRatioRule) :
    ErrorRatioCircuitBreaker → Prop where
  | init (resolved : Bool) : ErrRatioReachable r (newErrorRatioCircuitBreaker r resolved)
  | call (b : ErrorRatioCircuitBreaker) (nav : Bool) (env : ReadStat) :
      ErrRatioReachable r b → ErrRatioReachable r (b.tryPass nav env).breaker
  | recovery (b : ErrorRatioCircuitBreaker) :
      ErrRatioReachable r b → ErrRatioReachable r (errorRatioRecover b)

/-- States of an `errorCountCircuitBreaker` reachable from construction. -/
inductive ErrCountReachable (r : Option ErrorCountRule) :
    ErrorCountCircuitBreaker → Prop where
  | init (resolved : Bool) : ErrCountReachable r (newErrorCountCircuitBreaker r resolved)
  | call (b : ErrorCountCircuitBreaker) (nav : Bool) (env : ReadStat) :
      ErrCountReachable r b → ErrCountReachable r (b.tryPass nav env).breaker
  | recovery (b : ErrorCountCircuitBreaker) :
      ErrCountReachable r b → ErrCountReachable r (errorCountRecover b)

theorem averageRt_tryPass_open (b : AverageRtCircuitBreaker) (nav : Bool)
    (env : ReadStat) (h : b.cut = true) :
    b.tryPass nav env = ⟨false, b, 0, 0, none, none⟩ := by
  unfold AverageRtCircuitBreaker.tryPass
  simp [h]

theorem errorRatio_tryPass_open (b : ErrorRatioCircuitBreaker) (nav : Bool)
    (env : ReadStat) (h : b.cut = true) :
    b.tryPass nav env = ⟨false, b, 0, 0, none, none⟩ := by
  unfold ErrorRatioCircuitBreaker.tryPass
  simp [h]

theorem errorCount_tryPass_open (b : ErrorCountCircuitBreaker) (nav : Bool)
    (env : ReadStat) (h : b.cut = true) :
    b.tryPass nav env = ⟨false, b, 0, 0, none, none⟩ := by
  unfold ErrorCountCircuitBreaker.tryPass
  simp [h]

theorem averageRt_tryPass_ready (b : AverageRtCircuitBreaker)
    (rule : AverageRtRule) (nav : Bool) (env : ReadStat)
    (hc : b.cut = false) (hr : b.rule = some rule) (hm : b.metricResolved = true) :
    b.tryPass nav env = averageRtEval b rule env 0 := by
  unfold AverageRtCircuitBreaker.tryPass
  simp [hc, hr, hm]

theorem errorRatio_tryPass_ready (b : ErrorRatioCircuitBreaker)
    (rule : ErrorRatioRule) (nav : Bool) (env : ReadStat)
    (hc : b.cut = false) (hr : b.rule = some rule) (hm : b.metricResolved = true) :
    b.tryPass nav env = errorRatioEval b rule env 0 := by
  unfold ErrorRatioCircuitBreaker.tryPass
  simp [hc, hr, hm]

theorem errorCount_tryPass_ready (b : ErrorCountCircuitBreaker)
    (rule : ErrorCountRule) (nav : Bool) (env : ReadStat)
    (hc : b.cut = false) (hr : b.rule = some rule) (hm : b.metricResolved = true) :
    b.tryPass nav env = errorCountEval b rule env 0 := by
  unfold ErrorCountCircuitBreaker.tryPass
  simp [hc, hr, hm]

theorem averageRt_tryPass_rule (b : AverageRtCircuitBreaker) (nav : Bool)
    (env : ReadStat) : (b.tryPass nav env).breaker.rule = b.rule := by
  obtain ⟨cut, pc, rule, mr⟩ := b
  cases cut <;> cases rule <;> cases mr <;> cases nav <;>
    simp only [AverageRtCircuitBreaker.tryPass, averageRtEval] <;>
    (try split_ifs) <;> rfl

theorem errorRatio_tryPass_rule (b : ErrorRatioCircuitBreaker) (nav : Bool)
    (env : ReadStat) : (b.tryPass nav env).breaker.rule = b.rule := by
  obtain ⟨cut, pc, rule, mr⟩ := b
  cases cut <;> cases rule <;> cases mr <;> cases nav <;>
    simp only [ErrorRatioCircuitBreaker.tryPass, errorRatioEval] <;>
    (try split_ifs) <;> rfl

theorem errorCount_tryPass_rule (b : ErrorCountCircuitBreaker) (nav : Bool)
    (env : ReadStat) : (b.tryPass nav env).breaker.rule = b.rule := by
  obtain ⟨cut, pc, rule, mr⟩ := b
  cases cut <;> cases rule <;> cases mr <;> cases nav <;>
    simp only [ErrorCountCircuitBreaker.tryPass, errorCountEval] <;>
    (try split_ifs) <;> rfl

theorem errorRatio_tryPass_passCount (b : ErrorRatioCircuitBreaker) (nav : Bool)
    (env : ReadStat) : (b.tryPass nav env).breaker.passCount = b.passCount := by
  obtain ⟨cut, pc, rule, mr⟩ := b
  cases cut <;> cases rule <;> cases mr <;> cases nav <;>
    simp only [ErrorRatioCircuitBreaker.tryPass, errorRatioEval] <;>
    (try split_ifs) <;> rfl

theorem errorCount_tryPass_passCount (b : ErrorCountCircuitBreaker) (nav : Bool)
    (env : ReadStat) : (b.tryPass nav env).breaker.passCount = b.passCount := by
  obtain ⟨cut, pc, rule, mr⟩ := b
  cases cut <;> cases rule <;> cases mr <;> cases nav <;>
    simp only [ErrorCountCircuitBreaker.tryPass, errorCountEval] <;>
    (try split_ifs) <;> rfl

theorem avgRtReachable_rule (r : Option AverageRtRule)
    (b : AverageRtCircuitBreaker) (h : AvgRtReachable r b) : b.rule = r := by
  induction h with
  | init resolved => rfl
  | call b nav env _ ih => rw [averageRt_tryPass_rule, ih]
  | recovery b _ ih => exact ih

theorem errRatioReachable_rule (r : Option ErrorRatioRule)
    (b : ErrorRatioCircuitBreaker) (h : ErrRatioReachable r b) : b.rule = r := by
  induction h with
  | init resolved => rfl
  | call b nav env _ ih => rw [errorRatio_tryPass_rule, ih]
  | recovery b _ ih => exact ih

theorem errCountReachable_rule (r : Option ErrorCountRule)
    (b : ErrorCountCircuitBreaker) (h : ErrCountReachable r b) : b.rule = r := by
  induction h with
  | init resolved => rfl
  | call b nav env _ ih => rw [errorCount_tryPass_rule, ih]
  | recovery b _ ih => exact ih

theorem errRatioReachable_passCount (r : Option ErrorRatioRule)
    (b : ErrorRatioCircuitBreaker) (h : ErrRatioReachable r b) : b.passCount = 0 := by
  induction h with
  | init resolved => rfl
  | call b nav env _ ih => rw [errorRatio_tryPass_passCount, ih]
  | recovery b _ ih => exact ih

theorem errCountReachable_passCount (r : Option ErrorCountRule)
    (b : ErrorCountCircuitBreaker) (h : ErrCountReachable r b) : b.passCount = 0 := by
  induction h with
  | init resolved => rfl
  | call b nav env _ ih => rw [errorCount_tryPass_passCount, ih]
  | recovery b _ ih => exact ih

theorem runTripRace_open (n : ℕ) : runTripRace true n = (true, 0) := by
  induction n with
  | zero => rfl
  | succ n ih =>
    unfold runTripRace compareAndSet
    simp [ih]

theorem runTripRace_closed (n : ℕ) : runTripRace false (n + 1) = (true, 1) := by
  unfold runTripRace compareAndSet
  simp [runTripRace_open]

theorem averageRtEval_metricResolved (b : AverageRtCircuitBreaker)
    (rule : AverageRtRule) (env : ReadStat) (logs : ℕ) :
    (averageRtEval b rule env logs).breaker.metricResolved = b.metricResolved := by
  unfold averageRtEval
  split_ifs <;> rfl

theorem errorRatioEval_metricResolved (b : ErrorRatioCircuitBreaker)
    (rule : ErrorRatioRule) (env : ReadStat) (logs : ℕ) :
    (errorRatioEval b rule env logs).breaker.metricResolved = b.metricResolved := by
  unfold errorRatioEval
  split_ifs <;> rfl

theorem errorCountEval_metricResolved (b : ErrorCountCircuitBreaker)
    (rule : ErrorCountRule) (env : ReadStat) (logs : ℕ) :
    (errorCountEval b rule env logs).breaker.metricResolved = b.metricResolved := by
  unfold errorCountEval
  split_ifs <;> rfl

/-- Claim C1: for every breaker (any of the three strategies) whose tripped
indicator `cut` is true at the start of a `TryPass` call, the call returns
false, performs zero metric-source reads, and leaves the breaker state —
in particular the debounce counter `passCount` — unchanged. -/
theorem open_breaker_rejects_without_reads :
    (∀ (b : AverageRtCircuitBreaker) (nav : Bool) (env : ReadStat),
      b.cut = true →
      (b.tryPass nav env).pass = false ∧ (b.tryPass nav env).metricReads = 0 ∧
        (b.tryPass nav env).breaker = b) ∧
    (∀ (b : ErrorRatioCircuitBreaker) (nav : Bool) (env : ReadStat),
      b.cut = true →
      (b.tryPass nav env).pass = false ∧ (b.tryPass nav env).metricReads = 0 ∧
        (b.tryPass nav env).breaker = b) ∧
    (∀ (b : ErrorCountCircuitBreaker) (nav : Bool) (env : ReadStat),
      b.cut = true →
      (b.tryPass nav env).pass = false ∧ (b.tryPass nav env).metricReads = 0 ∧
        (b.tryPass nav env).breaker = b) := by
  refine ⟨fun b nav env h => ?_, fun b nav env h => ?_, fun b nav env h => ?_⟩
  · rw [averageRt_tryPass_open b nav env h]
    exact ⟨rfl, rfl, rfl⟩
  · rw [errorRatio_tryPass_open b nav env h]
    exact ⟨rfl, rfl, rfl⟩
  · rw [errorCount_tryPass_open b nav env h]
    exact ⟨rfl, rfl, rfl⟩

/-- Witness for C1 at a concrete tripped average-RT breaker. -/
theorem open_breaker_rejects_without_reads_witness :
    ((⟨true, 3, none, false⟩ : AverageRtCircuitBreaker).cut = true) ∧
    ((AverageRtCircuitBreaker.tryPass ⟨true, 3, none, false⟩ false
        ⟨0, 0, 0, 0, 0⟩).pass = false ∧
      (AverageRtCircuitBreaker.tryPass ⟨true, 3, none, false⟩ false
        ⟨0, 0, 0, 0, 0⟩).metricReads = 0 ∧
      (AverageRtCircuitBreaker.tryPass ⟨true, 3, none, false⟩ false
        ⟨0, 0, 0, 0, 0⟩).breaker = ⟨true, 3, none, false⟩) :=
  ⟨rfl, open_breaker_rejects_without_reads.1 ⟨true, 3, none, false⟩ false
    ⟨0, 0, 0, 0, 0⟩ rfl⟩

/-- Claim C2: per trip episode exactly one recovery task is scheduled.  The
closed-to-open transition is the single atomic `CompareAndSet(false, true)`
on `cut`: among `n + 1` concurrent callers that all reached the trip site
while the breaker was closed, every interleaving of their CAS steps spawns
exactly one recovery task and leaves the indicator open, and once the
indicator is open no further caller spawns anything; moreover, at the
`TryPass` level (any strategy), a recovery task is scheduled only on a call
that found the breaker closed and left it open. -/
theorem trip_single_winner :
    (∀ n : ℕ, runTripRace false (n + 1) = (true, 1)) ∧
    (∀ n : ℕ, runTripRace true n = (true, 0)) ∧
    (∀ (b : AverageRtCircuitBreaker) (nav : Bool) (env : ReadStat),
      (b.tryPass nav env).recovery.isSome = true →
      b.cut = false ∧ (b.tryPass nav env).breaker.cut = true) ∧
    (∀ (b : ErrorRatioCircuitBreaker) (nav : Bool) (env : ReadStat),
      (b.tryPass nav env).recovery.isSome = true →
      b.cut = false ∧ (b.tryPass nav env).breaker.cut = true) ∧
    (∀ (b : ErrorCountCircuitBreaker) (nav : Bool) (env : ReadStat),
      (b.tryPass nav env).recovery.isSome = true →
      b.cut = false ∧ (b.tryPass nav env).breaker.cut = true) := by
  refine ⟨runTripRace_closed, runTripRace_open, ?_, ?_, ?_⟩
  · intro b nav env
    obtain ⟨cut, pc, rule, mr⟩ := b
    cases cut <;> cases rule <;> cases mr <;> cases nav <;>
      simp only [AverageRtCircuitBreaker.tryPass, averageRtEval] <;>
      (try split_ifs) <;> simp
  · intro b nav env
    obtain ⟨cut, pc, rule, mr⟩ := b
    cases cut <;> cases rule <;> cases mr <;> cases nav <;>
      simp only [ErrorRatioCircuitBreaker.tryPass, errorRatioEval] <;>
      (try split_ifs) <;> simp
  · intro b nav env
    obtain ⟨cut, pc, rule, mr⟩ := b
    cases cut <;> cases rule <;> cases mr <;> cases nav <;>
      simp only [ErrorCountCircuitBreaker.tryPass, errorCountEval] <;>
      (try split_ifs) <;> simp

/-- Witness for C2 at a concrete tripping average-RT call. -/
theorem trip_single_winner_witness :
    ((AverageRtCircuitBreaker.tryPass ⟨false, 2, some ⟨"r", 5, 1000, 100, 3, 5⟩, true⟩
        true ⟨150, 0, 0, 0, 0⟩).recovery.isSome = true) ∧
    ((⟨false, 2, some ⟨"r", 5, 1000, 100, 3, 5⟩, true⟩ : AverageRtCircuitBreaker).cut = false ∧
      (AverageRtCircuitBreaker.tryPass ⟨false, 2, some ⟨"r", 5, 1000, 100, 3, 5⟩, true⟩
        true ⟨150, 0, 0, 0, 0⟩).breaker.cut = true) :=
  ⟨by decide, trip_single_winner.2.2.1 ⟨false, 2, some ⟨"r", 5, 1000, 100, 3, 5⟩, true⟩
    true ⟨150, 0, 0, 0, 0⟩ (by decide)⟩

/-- Claim C9: for every breaker instance, any two `getRule` calls at any
points in the instance's lifetime return the identical rule value: on every
state reachable from construction with rule `r` through `TryPass` calls and
recovery tasks, `getRule` returns `r` (so no operation ever modifies the
rule bound at construction). -/
theorem getRule_constant :
    (∀ (r : Option AverageRtRule) (b : AverageRtCircuitBreaker),
      AvgRtReachable r b → b.getRule = r) ∧
    (∀ (r : Option ErrorRatioRule) (b : ErrorRatioCircuitBreaker),
      ErrRatioReachable r b → b.getRule = r) ∧
    (∀ (r : Option ErrorCountRule) (b : ErrorCountCircuitBreaker),
      ErrCountReachable r b → b.getRule = r) :=
  ⟨fun r b h => avgRtReachable_rule r b h,
   fun r b h => errRatioReachable_rule r b h,
   fun r b h => errCountReachable_rule r b h⟩

/-- Witness for C9 at a freshly constructed average-RT breaker. -/
theorem getRule_constant_witness :
    AvgRtReachable (some ⟨"r", 5, 1000, 100, 3, 5⟩)
      (newAverageRtCircuitBreaker (some ⟨"r", 5, 1000, 100, 3, 5⟩) false) ∧
    (newAverageRtCircuitBreaker (some ⟨"r", 5, 1000, 100, 3, 5⟩) false).getRule =
      some ⟨"r", 5, 1000, 100, 3, 5⟩ :=
  ⟨AvgRtReachable.init false,
   getRule_constant.1 (some ⟨"r", 5, 1000, 100, 3, 5⟩)
     (newAverageRtCircuitBreaker (some ⟨"r", 5, 1000, 100, 3, 5⟩) false)
     (AvgRtReachable.init false)⟩

/-- Claim C7: for every ErrorCount `TryPass` call on a closed breaker with a
non-nil rule and resolved metric source, the call admits iff the error rate
read from the source is below `float64(rule.Threshold)`, and otherwise
returns false and opens the breaker; the decision depends on no metric but
the error rate (no minimum-sample guard); with threshold 10, error rate 9
admits and error rate 10 trips. -/
theorem errorCount_decision :
    (∀ (b : ErrorCountCircuitBreaker) (rule : ErrorCountRule) (nav : Bool)
        (env : ReadStat),
      b.cut = false → b.rule = some rule → b.metricResolved = true →
      ((b.tryPass nav env).pass = true ↔ env.errorQPS < (rule.threshold : ℚ)) ∧
      ((rule.threshold : ℚ) ≤ env.errorQPS →
        (b.tryPass nav env).pass = false ∧ (b.tryPass nav env).breaker.cut = true) ∧
      (∀ env2 : ReadStat, env2.errorQPS = env.errorQPS →
        (b.tryPass nav env2).pass = (b.tryPass nav env).pass)) ∧
    ((ErrorCountCircuitBreaker.tryPass ⟨false, 0, some ⟨"r", 5, 1000, 10, 5⟩, true⟩
      true ⟨0, 9, 0, 0, 0⟩).pass = true) ∧
    ((ErrorCountCircuitBreaker.tryPass ⟨false, 0, some ⟨"r", 5, 1000, 10, 5⟩, true⟩
      true ⟨0, 10, 0, 0, 0⟩).pass = false ∧
     (ErrorCountCircuitBreaker.tryPass ⟨false, 0, some ⟨"r", 5, 1000, 10, 5⟩, true⟩
      true ⟨0, 10, 0, 0, 0⟩).breaker.cut = true) := by
  refine ⟨?_, by decide, by decide⟩
  intro b rule nav env hc hr hm
  refine ⟨?_, ?_, ?_⟩
  · rw [errorCount_tryPass_ready b rule nav env hc hr hm]
    unfold errorCountEval
    split_ifs with h1
    · simp [h1]
    · simp [h1]
  · intro hge
    rw [errorCount_tryPass_ready b rule nav env hc hr hm]
    unfold errorCountEval
    rw [if_neg (not_lt.mpr hge), if_pos hc]
    exact ⟨rfl, rfl⟩
  · intro env2 he
    rw [errorCount_tryPass_ready b rule nav env hc hr hm,
      errorCount_tryPass_ready b rule nav env2 hc hr hm]
    unfold errorCountEval
    rw [he]

/-- Witness for C7 at a concrete closed error-count breaker with
threshold 10 and error rate 9. -/
theorem errorCount_decision_witness :
    ((⟨false, 0, some ⟨"r", 5, 1000, 10, 5⟩, true⟩ : ErrorCountCircuitBreaker).cut = false) ∧
    ((ErrorCountCircuitBreaker.tryPass ⟨false, 0, some ⟨"r", 5, 1000, 10, 5⟩, true⟩
        true ⟨0, 9, 0, 0, 0⟩).pass = true ↔
      (⟨0, 9, 0, 0, 0⟩ : ReadStat).errorQPS <
        (((⟨"r", 5, 1000, 10, 5⟩ : ErrorCountRule).threshold : ℚ))) :=
  ⟨rfl, (errorCount_decision.1 ⟨false, 0, some ⟨"r", 5, 1000, 10, 5⟩, true⟩
    ⟨"r", 5, 1000, 10, 5⟩ true ⟨0, 9, 0, 0, 0⟩ rfl rfl rfl).1⟩

/-- Claim C8: degraded-data conditions fail open.  A non-tripped breaker
with a nil rule admits (all three strategies); and a call with an
unresolved metric source whose stat-node lookup fails logs once, admits,
and leaves the breaker unchanged (so the `metric` field is still nil and
resolution is re-attempted — and succeeds — on the next call whose lookup
succeeds). -/
theorem fail_open_degraded :
    (∀ (b : AverageRtCircuitBreaker) (nav : Bool) (env : ReadStat),
      b.cut = false → b.rule = none → (b.tryPass nav env).pass = true) ∧
    (∀ (b : ErrorRatioCircuitBreaker) (nav : Bool) (env : ReadStat),
      b.cut = false → b.rule = none → (b.tryPass nav env).pass = true) ∧
    (∀ (b : ErrorCountCircuitBreaker) (nav : Bool) (env : ReadStat),
      b.cut = false → b.rule = none → (b.tryPass nav env).pass = true) ∧
    (∀ (b : AverageRtCircuitBreaker) (r : AverageRtRule) (env env2 : ReadStat),
      b.cut = false → b.rule = some r → b.metricResolved = false →
      (b.tryPass false env).pass = true ∧ (b.tryPass false env).logs = 1 ∧
      (b.tryPass false env).breaker = b ∧
      ((b.tryPass false env).breaker.tryPass true env2).breaker.metricResolved = true) ∧
    (∀ (b : ErrorRatioCircuitBreaker) (r : ErrorRatioRule) (env env2 : ReadStat),
      b.cut = false → b.rule = some r → b.metricResolved = false →
      (b.tryPass false env).pass = true ∧ (b.tryPass false env).logs = 1 ∧
      (b.tryPass false env).breaker = b ∧
      ((b.tryPass false env).breaker.tryPass true env2).breaker.metricResolved = true) ∧
    (∀ (b : ErrorCountCircuitBreaker) (r : ErrorCountRule) (env env2 : ReadStat),
      b.cut = false → b.rule = some r → b.metricResolved = false →
      (b.tryPass false env).pass = true ∧ (b.tryPass false env).logs = 1 ∧
      (b.tryPass false env).breaker = b ∧
      ((b.tryPass false env).breaker.tryPass true env2).breaker.metricResolved = true) := by
  refine ⟨?_, ?_, ?_, ?_, ?_, ?_⟩
  · intro b nav env hc hr
    unfold AverageRtCircuitBreaker.tryPass
    simp [hc, hr]
  · intro b nav env hc hr
    unfold ErrorRatioCircuitBreaker.tryPass
    simp [hc, hr]
  · intro b nav env hc hr
    unfold ErrorCountCircuitBreaker.tryPass
    simp [hc, hr]
  · intro b r env env2 hc hr hm
    have hred : b.tryPass false env = ⟨true, b, 0, 1, none, none⟩ := by
      unfold AverageRtCircuitBreaker.tryPass
      simp [hc, hr, hm]
    refine ⟨by rw [hred], by rw [hred], by rw [hred], ?_⟩
    rw [hred]
    show (b.tryPass true env2).breaker.metricResolved = true
    unfold AverageRtCircuitBreaker.tryPass
    simp [hc, hr, hm, averageRtEval_metricResolved]
  · intro b r env env2 hc hr hm
    have hred : b.tryPass false env = ⟨true, b, 0, 1, none, none⟩ := by
      unfold ErrorRatioCircuitBreaker.tryPass
      simp [hc, hr, hm]
    refine ⟨by rw [hred], by rw [hred], by rw [hred], ?_⟩
    rw [hred]
    show (b.tryPass true env2).breaker.metricResolved = true
    unfold ErrorRatioCircuitBreaker.tryPass
    simp [hc, hr, hm, errorRatioEval_metricResolved]
  · intro b r env env2 hc hr hm
    have hred : b.tryPass false env = ⟨true, b, 0, 1, none, none⟩ := by
      unfold ErrorCountCircuitBreaker.tryPass
      simp [hc, hr, hm]
    refine ⟨by rw [hred], by rw [hred], by rw [hred], ?_⟩
    rw [hred]
    show (b.tryPass true env2).breaker.metricResolved = true
    unfold ErrorCountCircuitBreaker.tryPass
    simp [hc, hr, hm, errorCountEval_metricResolved]

/-- Witness for C8: a nil-rule average-RT breaker admits, and a concrete
unresolved one admits with one log and an unchanged state. -/
theorem fail_open_degraded_witness :
    ((⟨false, 0, none, true⟩ : AverageRtCircuitBreaker).cut = false) ∧
    ((AverageRtCircuitBreaker.tryPass ⟨false, 0, none, true⟩ true
        ⟨0, 0, 0, 0, 0⟩).pass = true) ∧
    ((AverageRtCircuitBreaker.tryPass ⟨false, 0, some ⟨"r", 5, 1000, 100, 3, 5⟩, false⟩
        false ⟨0, 0, 0, 0, 0⟩).pass = true ∧
      (AverageRtCircuitBreaker.tryPass ⟨false, 0, some ⟨"r", 5, 1000, 100, 3, 5⟩, false⟩
        false ⟨0, 0, 0, 0, 0⟩).logs = 1 ∧
      (AverageRtCircuitBreaker.tryPass ⟨false, 0, some ⟨"r", 5, 1000, 100, 3, 5⟩, false⟩
        false ⟨0, 0, 0, 0, 0⟩).breaker = ⟨false, 0, some ⟨"r", 5, 1000, 100, 3, 5⟩, false⟩ ∧
      ((AverageRtCircuitBreaker.tryPass ⟨false, 0, some ⟨"r", 5, 1000, 100, 3, 5⟩, false⟩
          false ⟨0, 0, 0, 0, 0⟩).breaker.tryPass true
        ⟨0, 0, 0, 0, 0⟩).breaker.metricResolved = true) :=
  ⟨rfl,
   fail_open_degraded.1 ⟨false, 0, none, true⟩ true ⟨0, 0, 0, 0, 0⟩ rfl rfl,
   fail_open_degraded.2.2.2.1 ⟨false, 0, some ⟨"r", 5, 1000, 100, 3, 5⟩, false⟩
     ⟨"r", 5, 1000, 100, 3, 5⟩ ⟨0, 0, 0, 0, 0⟩ ⟨0, 0, 0, 0, 0⟩ rfl rfl rfl⟩

/-- Claim C5: for every AverageLatency `TryPass` call on a closed breaker
with a non-nil rule and resolved metric source: an average below the
threshold resets the debounce counter to zero and admits; an average at or
above the threshold increments the counter, the call still admits (breaker
stays closed) while the post-increment value is below
`RtSlowRequestAmount`, and trips (returns false, opening the breaker) once
the counter reaches it.  With threshold 100 and tolerance 3, two violating
samples (avg 150) admit, the third trips, and a single compliant sample
(avg 50) after two violations resets the counter to 0. -/
theorem averageRt_decision :
    (∀ (b : AverageRtCircuitBreaker) (rule : AverageRtRule) (nav : Bool)
        (env : ReadStat),
      b.cut = false → b.rule = some rule → b.metricResolved = true →
      (env.avgRT < rule.threshold →
        (b.tryPass nav env).pass = true ∧
        (b.tryPass nav env).breaker.passCount = 0) ∧
      (rule.threshold ≤ env.avgRT →
        (b.tryPass nav env).breaker.passCount = b.passCount + 1 ∧
        (b.passCount + 1 < rule.rtSlowRequestAmount →
          (b.tryPass nav env).pass = true ∧
          (b.tryPass nav env).breaker.cut = false) ∧
        (rule.rtSlowRequestAmount ≤ b.passCount + 1 →
          (b.tryPass nav env).pass = false ∧
          (b.tryPass nav env).breaker.cut = true))) ∧
    ((AverageRtCircuitBreaker.tryPass
        (newAverageRtCircuitBreaker (some ⟨"r", 5, 1000, 100, 3, 5⟩) true)
        true ⟨150, 0, 0, 0, 0⟩).pass = true) ∧
    (((AverageRtCircuitBreaker.tryPass
        (newAverageRtCircuitBreaker (some ⟨"r", 5, 1000, 100, 3, 5⟩) true)
        true ⟨150, 0, 0, 0, 0⟩).breaker.tryPass true ⟨150, 0, 0, 0, 0⟩).pass = true) ∧
    ((((AverageRtCircuitBreaker.tryPass
        (newAverageRtCircuitBreaker (some ⟨"r", 5, 1000, 100, 3, 5⟩) true)
        true ⟨150, 0, 0, 0, 0⟩).breaker.tryPass true
          ⟨150, 0, 0, 0, 0⟩).breaker.tryPass true ⟨150, 0, 0, 0, 0⟩).pass = false ∧
     (((AverageRtCircuitBreaker.tryPass
        (newAverageRtCircuitBreaker (some ⟨"r", 5, 1000, 100, 3, 5⟩) true)
        true ⟨150, 0, 0, 0, 0⟩).breaker.tryPass true
          ⟨150, 0, 0, 0, 0⟩).breaker.tryPass true ⟨150, 0, 0, 0, 0⟩).breaker.cut = true) ∧
    ((((AverageRtCircuitBreaker.tryPass
        (newAverageRtCircuitBreaker (some ⟨"r", 5, 1000, 100, 3, 5⟩) true)
        true ⟨150, 0, 0, 0, 0⟩).breaker.tryPass true
          ⟨150, 0, 0, 0, 0⟩).breaker.tryPass true ⟨50, 0, 0, 0, 0⟩).pass = true ∧
     (((AverageRtCircuitBreaker.tryPass
        (newAverageRtCircuitBreaker (some ⟨"r", 5, 1000, 100, 3, 5⟩) true)
        true ⟨150, 0, 0, 0, 0⟩).breaker.tryPass true
          ⟨150, 0, 0, 0, 0⟩).breaker.tryPass true ⟨50, 0, 0, 0, 0⟩).breaker.passCount = 0) := by
  refine ⟨?_, by decide, by decide, by decide, by decide⟩
  intro b rule nav env hc hr hm
  rw [averageRt_tryPass_ready b rule nav env hc hr hm]
  unfold averageRtEval
  constructor
  · intro hlt
    rw [if_pos hlt]
    exact ⟨rfl, rfl⟩
  · intro hge
    rw [if_neg (not_lt.mpr hge)]
    refine ⟨?_, ?_, ?_⟩
    · split_ifs <;> rfl
    · intro htol
      rw [if_pos htol]
      exact ⟨rfl, hc⟩
    · intro htol
      rw [if_neg (not_lt.mpr htol), if_pos hc]
      exact ⟨rfl, rfl⟩

/-- Witness for C5 at a concrete closed average-RT breaker seeing a
compliant sample. -/
theorem averageRt_decision_witness :
    ((⟨false, 2, some ⟨"r", 5, 1000, 100, 3, 5⟩, true⟩ : AverageRtCircuitBreaker).cut = false) ∧
    ((⟨50, 0, 0, 0, 0⟩ : ReadStat).avgRT <
        (⟨"r", 5, 1000, 100, 3, 5⟩ : AverageRtRule).threshold) ∧
    ((AverageRtCircuitBreaker.tryPass ⟨false, 2, some ⟨"r", 5, 1000, 100, 3, 5⟩, true⟩
        true ⟨50, 0, 0, 0, 0⟩).pass = true ∧
      (AverageRtCircuitBreaker.tryPass ⟨false, 2, some ⟨"r", 5, 1000, 100, 3, 5⟩, true⟩
        true ⟨50, 0, 0, 0, 0⟩).breaker.passCount = 0) :=
  ⟨rfl, by decide,
   (averageRt_decision.1 ⟨false, 2, some ⟨"r", 5, 1000, 100, 3, 5⟩, true⟩
     ⟨"r", 5, 1000, 100, 3, 5⟩ true ⟨50, 0, 0, 0, 0⟩ rfl rfl rfl).1 (by decide)⟩

/-- Claim C3: for every ErrorRatio `TryPass` call on a closed breaker with a
non-nil rule and resolved metric source, the decision follows the source's
chain: admit when `total = pass + block` is below `MinRequestAmount`;
otherwise admit (without reaching the division) when
`realComplete = complete - error <= 0` and `error` is below
`MinRequestAmount`; otherwise (here stated for a nonzero `complete`) admit
when `error/complete` is below the threshold and trip — return false and
open the breaker — when the ratio is at or above it.  Concretely, for
`MinRequestAmount = 5`, threshold `1/2`: total `3` admits for every error
and complete value; total `10`, error `6`, complete `10` trips; total `10`,
complete `0`, error `2` admits with no division performed. -/
theorem errorRatio_decision :
    (∀ (b : ErrorRatioCircuitBreaker) (rule : ErrorRatioRule) (nav : Bool)
        (env : ReadStat),
      b.cut = false → b.rule = some rule → b.metricResolved = true →
      (env.passQPS + env.blockQPS < (rule.minRequestAmount : ℚ) →
        (b.tryPass nav env).pass = true) ∧
      ((rule.minRequestAmount : ℚ) ≤ env.passQPS + env.blockQPS →
        (env.completeQPS - env.errorQPS ≤ 0 ∧
            env.errorQPS < (rule.minRequestAmount : ℚ) →
          (b.tryPass nav env).pass = true ∧
          (b.tryPass nav env).divisorAtDivision = none) ∧
        (¬(env.completeQPS - env.errorQPS ≤ 0 ∧
            env.errorQPS < (rule.minRequestAmount : ℚ)) →
          env.completeQPS ≠ 0 →
          (env.errorQPS / env.completeQPS < rule.threshold →
            (b.tryPass nav env).pass = true) ∧
          (rule.threshold ≤ env.errorQPS / env.completeQPS →
            (b.tryPass nav env).pass = false ∧
            (b.tryPass nav env).breaker.cut = true)))) ∧
    (∀ er cm : ℚ,
      (ErrorRatioCircuitBreaker.tryPass
        (newErrorRatioCircuitBreaker (some ⟨"r", 5, 1000, 1/2, 5, 5⟩) true)
        true ⟨0, er, cm, 3, 0⟩).pass = true) ∧
    ((ErrorRatioCircuitBreaker.tryPass
        (newErrorRatioCircuitBreaker (some ⟨"r", 5, 1000, 1/2, 5, 5⟩) true)
        true ⟨0, 6, 10, 10, 0⟩).pass = false ∧
      (ErrorRatioCircuitBreaker.tryPass
        (newErrorRatioCircuitBreaker (some ⟨"r", 5, 1000, 1/2, 5, 5⟩) true)
        true ⟨0, 6, 10, 10, 0⟩).breaker.cut = true) ∧
    ((ErrorRatioCircuitBreaker.tryPass
        (newErrorRatioCircuitBreaker (some ⟨"r", 5, 1000, 1/2, 5, 5⟩) true)
        true ⟨0, 2, 0, 10, 0⟩).pass = true ∧
      (ErrorRatioCircuitBreaker.tryPass
        (newErrorRatioCircuitBreaker (some ⟨"r", 5, 1000, 1/2, 5, 5⟩) true)
        true ⟨0, 2, 0, 10, 0⟩).divisorAtDivision = none) := by
  have hgen : ∀ (b : ErrorRatioCircuitBreaker) (rule : ErrorRatioRule) (nav : Bool)
      (env : ReadStat),
      b.cut = false → b.rule = some rule → b.metricResolved = true →
      (env.passQPS + env.blockQPS < (rule.minRequestAmount : ℚ) →
        (b.tryPass nav env).pass = true) ∧
      ((rule.minRequestAmount : ℚ) ≤ env.passQPS + env.blockQPS →
        (env.completeQPS - env.errorQPS ≤ 0 ∧
            env.errorQPS < (rule.minRequestAmount : ℚ) →
          (b.tryPass nav env).pass = true ∧
          (b.tryPass nav env).divisorAtDivision = none) ∧
        (¬(env.completeQPS - env.errorQPS ≤ 0 ∧
            env.errorQPS < (rule.minRequestAmount : ℚ)) →
          env.completeQPS ≠ 0 →
          (env.errorQPS / env.completeQPS < rule.threshold →
            (b.tryPass nav env).pass = true) ∧
          (rule.threshold ≤ env.errorQPS / env.completeQPS →
            (b.tryPass nav env).pass = false ∧
            (b.tryPass nav env).breaker.cut = true))) := by
    intro b rule nav env hc hr hm
    rw [errorRatio_tryPass_ready b rule nav env hc hr hm]
    unfold errorRatioEval
    constructor
    · intro hlt
      rw [if_pos hlt]
    · intro hge
      rw [if_neg (not_lt.mpr hge)]
      constructor
      · intro hguard
        rw [if_pos hguard]
        exact ⟨rfl, rfl⟩
      · intro hng hcne
        rw [if_neg hng]
        have hfd : floatDivLt env.errorQPS env.completeQPS rule.threshold
            = decide (env.errorQPS / env.completeQPS < rule.threshold) := by
          unfold floatDivLt
          rw [if_neg hcne]
        constructor
        · intro hratio
          rw [hfd, if_pos (decide_eq_true hratio)]
        · intro hge2
          rw [hfd, if_neg (by simp [decide_eq_false (not_lt.mpr hge2)]),
            if_pos hc]
          exact ⟨rfl, rfl⟩
  refine ⟨hgen, ?_, by with_unfolding_all decide, by with_unfolding_all decide⟩
  intro er cm
  exact (hgen (newErrorRatioCircuitBreaker (some ⟨"r", 5, 1000, 1/2, 5, 5⟩) true)
    ⟨"r", 5, 1000, 1/2, 5, 5⟩ true ⟨0, er, cm, 3, 0⟩ rfl rfl rfl).1 (by norm_num)

/-- Witness for C3: the minimum-sample branch at total `3 + 0` against
`MinRequestAmount = 5` admits. -/
theorem errorRatio_decision_witness :
    ((3:ℚ) + 0 < ((5:ℕ):ℚ)) ∧
    ((ErrorRatioCircuitBreaker.tryPass
        (newErrorRatioCircuitBreaker (some ⟨"r", 5, 1000, 1/2, 5, 5⟩) true)
        true ⟨0, 6, 10, 3, 0⟩).pass = true) :=
  ⟨(add_zero (3:ℚ)).symm ▸ (by decide : (3:ℚ) < ((5:ℕ):ℚ)),
   (errorRatio_decision.1
      (newErrorRatioCircuitBreaker (some ⟨"r", 5, 1000, 1/2, 5, 5⟩) true)
      ⟨"r", 5, 1000, 1/2, 5, 5⟩ true ⟨0, 6, 10, 3, 0⟩ rfl rfl rfl).1
      ((add_zero (3:ℚ)).symm ▸ (by decide : (3:ℚ) < ((5:ℕ):ℚ)))⟩

theorem errorRatioEval_zero_complete (b : ErrorRatioCircuitBreaker)
    (rule : ErrorRatioRule) (env : ReadStat) (logs : ℕ)
    (hc : b.cut = false) (h0 : env.completeQPS = 0)
    (htot : (rule.minRequestAmount : ℚ) ≤ env.passQPS + env.blockQPS)
    (herr : (rule.minRequestAmount : ℚ) ≤ env.errorQPS) :
    errorRatioEval b rule env logs =
      ⟨false, { b with cut := true }, 4, logs, some rule.recoverTimeout, some 0⟩ := by
  unfold errorRatioEval
  rw [if_neg (not_lt.mpr htot)]
  rw [if_neg (fun h => absurd h.2 (not_lt.mpr herr))]
  have hnn : (0:ℚ) ≤ env.errorQPS := le_trans (Nat.cast_nonneg _) herr
  have hfd : floatDivLt env.errorQPS env.completeQPS rule.threshold = false := by
    unfold floatDivLt
    rw [if_pos h0]
    exact decide_eq_false (not_lt.mpr hnn)
  rw [hfd, if_neg (by simp), if_pos hc, h0]

theorem errorRatioEval_guard_protected (b : ErrorRatioCircuitBreaker)
    (rule : ErrorRatioRule) (env : ReadStat) (logs : ℕ)
    (h0 : env.completeQPS = 0) (hnn : 0 ≤ env.errorQPS)
    (hlt : env.errorQPS < (rule.minRequestAmount : ℚ)) :
    (errorRatioEval b rule env logs).divisorAtDivision = none := by
  unfold errorRatioEval
  split_ifs with h1 h2 h3 h4
  · rfl
  · rfl
  · exact absurd ⟨by rw [h0]; linarith, hlt⟩ h2
  · exact absurd ⟨by rw [h0]; linarith, hlt⟩ h2
  · exact absurd ⟨by rw [h0]; linarith, hlt⟩ h2

/-- Counterexample to claim C4 as stated: at `MinRequestAmount = 5`,
`complete = 0`, `error = 5`, `pass = 10`, `block = 0`, the `realComplete <= 0`
guard does not fire (because `error` is not below `MinRequestAmount`), and
the division `err/complete` IS reached with divisor `0` — so the guard does
not fully protect the division. -/
theorem div_guard_counterexample :
    (ErrorRatioCircuitBreaker.tryPass
      (newErrorRatioCircuitBreaker (some ⟨"r", 5, 1000, 1/2, 5, 5⟩) true)
      true ⟨0, 5, 0, 10, 0⟩).divisorAtDivision = some 0 ∧
    (⟨0, 5, 0, 10, 0⟩ : ReadStat).completeQPS = 0 :=
  ⟨by with_unfolding_all decide, rfl⟩

/-- Claim C4 (amended): in the ErrorRatio `TryPass` path the
`realComplete <= 0` guard is evaluated strictly before the division, and
with `complete = 0` (and a nonnegative error rate) it protects the
division exactly when `error` is below `MinRequestAmount`; when both
`total` and `error` are at least `MinRequestAmount` the division is
reached with a zero divisor, and the resulting non-finite quotient is not
below the threshold, so the call returns false and trips — no fault
occurs, but the guard alone does not make the divisor nonzero. -/
theorem div_guard_scope :
    ∀ (b : ErrorRatioCircuitBreaker) (rule : ErrorRatioRule) (nav : Bool)
      (env : ReadStat),
    b.cut = false → b.rule = some rule → b.metricResolved = true →
    env.completeQPS = 0 →
    (0 ≤ env.errorQPS → env.errorQPS < (rule.minRequestAmount : ℚ) →
      (b.tryPass nav env).divisorAtDivision = none) ∧
    ((rule.minRequestAmount : ℚ) ≤ env.passQPS + env.blockQPS →
      (rule.minRequestAmount : ℚ) ≤ env.errorQPS →
      (b.tryPass nav env).divisorAtDivision = some 0 ∧
      (b.tryPass nav env).pass = false ∧
      (b.tryPass nav env).breaker.cut = true) := by
  intro b rule nav env hc hr hm h0
  rw [errorRatio_tryPass_ready b rule nav env hc hr hm]
  constructor
  · intro hnn hlt
    exact errorRatioEval_guard_protected b rule env 0 h0 hnn hlt
  · intro htot herr
    rw [errorRatioEval_zero_complete b rule env 0 hc h0 htot herr]
    exact ⟨rfl, rfl, rfl⟩

/-- Witness for the amended C4 at `error = 5 = MinRequestAmount`,
`complete = 0`, `total = 10 + 0`. -/
theorem div_guard_scope_witness :
    (((5:ℕ):ℚ) ≤ (10:ℚ) + 0) ∧
    ((ErrorRatioCircuitBreaker.tryPass
        (newErrorRatioCircuitBreaker (some ⟨"r", 5, 1000, 1/2, 5, 5⟩) true)
        true ⟨0, 5, 0, 10, 0⟩).divisorAtDivision = some 0 ∧
      (ErrorRatioCircuitBreaker.tryPass
        (newErrorRatioCircuitBreaker (some ⟨"r", 5, 1000, 1/2, 5, 5⟩) true)
        true ⟨0, 5, 0, 10, 0⟩).pass = false ∧
      (ErrorRatioCircuitBreaker.tryPass
        (newErrorRatioCircuitBreaker (some ⟨"r", 5, 1000, 1/2, 5, 5⟩) true)
        true ⟨0, 5, 0, 10, 0⟩).breaker.cut = true) :=
  ⟨le_of_le_of_eq (by decide : ((5:ℕ):ℚ) ≤ 10) (add_zero (10:ℚ)).symm,
   (div_guard_scope
      (newErrorRatioCircuitBreaker (some ⟨"r", 5, 1000, 1/2, 5, 5⟩) true)
      ⟨"r", 5, 1000, 1/2, 5, 5⟩ true ⟨0, 5, 0, 10, 0⟩ rfl rfl rfl rfl).2
      (le_of_le_of_eq (by decide : ((5:ℕ):ℚ) ≤ 10) (add_zero (10:ℚ)).symm)
      (by decide : ((5:ℕ):ℚ) ≤ 5)⟩

/-- Claim C10: for every ErrorRatio `TryPass` call on a closed breaker with
a non-nil rule and resolved metric source where `complete = 0`, `total` is
at least `MinRequestAmount`, and `error` is at least `MinRequestAmount`,
the insufficient-signal guard does not fire, the division is evaluated
with a zero divisor (the non-finite float quotient compares not-below the
threshold), and the call returns false and trips the breaker — for every
threshold value. -/
theorem errorRatio_zero_complete_trips :
    ∀ (b : ErrorRatioCircuitBreaker) (rule : ErrorRatioRule) (nav : Bool)
      (env : ReadStat),
    b.cut = false → b.rule = some rule → b.metricResolved = true →
    env.completeQPS = 0 →
    (rule.minRequestAmount : ℚ) ≤ env.passQPS + env.blockQPS →
    (rule.minRequestAmount : ℚ) ≤ env.errorQPS →
    (b.tryPass nav env).divisorAtDivision = some 0 ∧
    (b.tryPass nav env).pass = false ∧
    (b.tryPass nav env).breaker.cut = true := by
  intro b rule nav env hc hr hm h0 htot herr
  rw [errorRatio_tryPass_ready b rule nav env hc hr hm,
    errorRatioEval_zero_complete b rule env 0 hc h0 htot herr]
  exact ⟨rfl, rfl, rfl⟩

/-- Witness for C10 at `error = 6`, `complete = 0`, `total = 10 + 0`,
`MinRequestAmount = 5`, threshold `1/2`. -/
theorem errorRatio_zero_complete_trips_witness :
    (((5:ℕ):ℚ) ≤ (10:ℚ) + 0) ∧ (((5:ℕ):ℚ) ≤ (6:ℚ)) ∧
    ((ErrorRatioCircuitBreaker.tryPass
        (newErrorRatioCircuitBreaker (some ⟨"r", 5, 1000, 1/2, 5, 5⟩) true)
        true ⟨0, 6, 0, 10, 0⟩).divisorAtDivision = some 0 ∧
      (ErrorRatioCircuitBreaker.tryPass
        (newErrorRatioCircuitBreaker (some ⟨"r", 5, 1000, 1/2, 5, 5⟩) true)
        true ⟨0, 6, 0, 10, 0⟩).pass = false ∧
      (ErrorRatioCircuitBreaker.tryPass
        (newErrorRatioCircuitBreaker (some ⟨"r", 5, 1000, 1/2, 5, 5⟩) true)
        true ⟨0, 6, 0, 10, 0⟩).breaker.cut = true) :=
  ⟨le_of_le_of_eq (by decide : ((5:ℕ):ℚ) ≤ 10) (add_zero (10:ℚ)).symm,
   by decide,
   errorRatio_zero_complete_trips
     (newErrorRatioCircuitBreaker (some ⟨"r", 5, 1000, 1/2, 5, 5⟩) true)
     ⟨"r", 5, 1000, 1/2, 5, 5⟩ true ⟨0, 6, 0, 10, 0⟩ rfl rfl rfl rfl
     (le_of_le_of_eq (by decide : ((5:ℕ):ℚ) ≤ 10) (add_zero (10:ℚ)).symm)
     (by decide : ((5:ℕ):ℚ) ≤ 6)⟩

/-- Claim C6: for every strategy, a recovery task is scheduled only with a
sleep delay equal to the rule's `RecoverTimeout` (seconds), and its body —
a function of the breaker state alone, reading no metrics — leaves the
breaker with debounce counter zero and tripped indicator false: the
average-RT task stores both directly, and the other two tasks store only
`cut := false`, while on every reachable state of those breakers the
counter is invariantly zero. -/
theorem recovery_resets_state :
    (∀ (b : AverageRtCircuitBreaker) (nav : Bool) (env : ReadStat) (t : ℕ),
      (b.tryPass nav env).recovery = some t →
      ∃ r, b.rule = some r ∧ t = r.recoverTimeout) ∧
    (∀ b : AverageRtCircuitBreaker,
      (averageRtRecover b).passCount = 0 ∧ (averageRtRecover b).cut = false) ∧
    (∀ (b : ErrorRatioCircuitBreaker) (nav : Bool) (env : ReadStat) (t : ℕ),
      (b.tryPass nav env).recovery = some t →
      ∃ r, b.rule = some r ∧ t = r.recoverTimeout) ∧
    (∀ (r : Option ErrorRatioRule) (b : ErrorRatioCircuitBreaker),
      ErrRatioReachable r b →
      (errorRatioRecover b).passCount = 0 ∧ (errorRatioRecover b).cut = false) ∧
    (∀ (b : ErrorCountCircuitBreaker) (nav : Bool) (env : ReadStat) (t : ℕ),
      (b.tryPass nav env).recovery = some t →
      ∃ r, b.rule = some r ∧ t = r.recoverTimeout) ∧
    (∀ (r : Option ErrorCountRule) (b : ErrorCountCircuitBreaker),
      ErrCountReachable r b →
      (errorCountRecover b).passCount = 0 ∧ (errorCountRecover b).cut = false) := by
  refine ⟨?_, fun b => ⟨rfl, rfl⟩, ?_,
    fun r b h => ⟨errRatioReachable_passCount r b h, rfl⟩, ?_,
    fun r b h => ⟨errCountReachable_passCount r b h, rfl⟩⟩
  · intro b nav env t
    obtain ⟨cut, pc, rule, mr⟩ := b
    cases cut <;> cases rule <;> cases mr <;> cases nav <;>
      simp only [AverageRtCircuitBreaker.tryPass, averageRtEval] <;>
      (try split_ifs) <;> simp <;> omega
  · intro b nav env t
    obtain ⟨cut, pc, rule, mr⟩ := b
    cases cut <;> cases rule <;> cases mr <;> cases nav <;>
      simp only [ErrorRatioCircuitBreaker.tryPass, errorRatioEval] <;>
      (try split_ifs) <;> simp <;> omega
  · intro b nav env t
    obtain ⟨cut, pc, rule, mr⟩ := b
    cases cut <;> cases rule <;> cases mr <;> cases nav <;>
      simp only [ErrorCountCircuitBreaker.tryPass, errorCountEval] <;>
      (try split_ifs) <;> simp <;> omega

/-- Witness for C6 at a concrete tripping average-RT call (delay 5 = the
rule's `RecoverTimeout`) and a reachable error-ratio breaker. -/
theorem recovery_resets_state_witness :
    ((AverageRtCircuitBreaker.tryPass ⟨false, 2, some ⟨"r", 5, 1000, 100, 3, 5⟩, true⟩
        true ⟨150, 0, 0, 0, 0⟩).recovery = some 5) ∧
    (∃ r, (⟨false, 2, some ⟨"r", 5, 1000, 100, 3, 5⟩, true⟩ : AverageRtCircuitBreaker).rule
        = some r ∧ 5 = r.recoverTimeout) ∧
    ErrRatioReachable none (newErrorRatioCircuitBreaker none false) ∧
    ((errorRatioRecover (newErrorRatioCircuitBreaker none false)).passCount = 0 ∧
      (errorRatioRecover (newErrorRatioCircuitBreaker none false)).cut = false) :=
  ⟨by decide,
   recovery_resets_state.1 ⟨false, 2, some ⟨"r", 5, 1000, 100, 3, 5⟩, true⟩
     true ⟨150, 0, 0, 0, 0⟩ 5 (by decide),
   ErrRatioReachable.init false,
   recovery_resets_state.2.2.2.1 none (newErrorRatioCircuitBreaker none false)
     (ErrRatioReachable.init false)⟩
